import Mathlib

/-!
Verification of the WebShepherd scan engine (backend/scanner) against its
specification.  The Python source is shallowly embedded: the document model
is the view that `parser.ParsedHTML` exposes to the rules (a parsed element
is represented by the attribute list, text content, parent tag name, first
contained image, and serialized form that the rules actually read), each
WCAG rule class from `scanner/rules/` becomes a Lean function on that view,
and the scoring and aggregation code of `ScanEngine.scan_url` becomes pure
arithmetic over exact rationals (Python floats are modelled by the exact
rational values; the only float operations involved, multiplication by 0.5,
division and one rounding to one decimal, are modelled exactly, with
rounding modelled by the usual round-half-up on rationals).
-/

/-- Severity levels of `models.SeverityLevel`. -/
inductive SeverityLevel where
  | pass
  | warning
  | fail
deriving DecidableEq

/-- Conformance levels of `models.WCAGLevel`. -/
inductive WCAGLevel where
  | A
  | AA
  | AAA
deriving DecidableEq

/-- `models.Finding`: one observation emitted by one rule evaluation. -/
structure Finding where
  rule_code : String
  severity : SeverityLevel
  message : String
  element : Option String
  wcag_reference : String
  wcag_level : WCAGLevel
  principle : String
  remediation : String
  count : Nat
deriving DecidableEq

/-- The view of one BeautifulSoup element as consumed by the rules:
tag name, attribute list (absent and present-but-empty are distinct),
text content as returned by `get_text()`, the parent tag name
(`elem.parent.name`), the `alt` attribute of the first `<img>` found
inside the element (`link.find("img")`, `none` when there is no image),
and the serialization `str(elem)` used for snippets. -/
structure Tag where
  name : String
  attrs : List (String × String)
  text : String
  parentName : Option String
  firstImgAlt : Option (Option String)
  raw : String
deriving DecidableEq

/-- `elem.get(key)`: attribute lookup, `none` when absent. -/
def Tag.get (t : Tag) (key : String) : Option String :=
  (t.attrs.find? (fun kv => kv.1 == key)).map (fun kv => kv.2)

/-- `elem.get(key, dflt)`. -/
def Tag.getD (t : Tag) (key dflt : String) : String :=
  (t.get key).getD dflt

/-- Python truthiness of `elem.get(key)`: the attribute is present and
not the empty string. -/
def Tag.attrTruthy (t : Tag) (key : String) : Bool :=
  match t.get key with
  | some s => s != ""
  | none => false

/-- Python `str.strip()`: whitespace removed from both ends.  Written on
the character list so that it evaluates by structural recursion. -/
def strTrim (s : String) : String :=
  ⟨((s.data.dropWhile Char.isWhitespace).reverse.dropWhile
      Char.isWhitespace).reverse⟩

/-- Python `str.lower()` (the attribute values involved are ASCII). -/
def strLower (s : String) : String :=
  ⟨s.data.map Char.toLower⟩

/-- Python `s[:n]`: the first `n` characters. -/
def strTake (s : String) (n : Nat) : String :=
  ⟨s.data.take n⟩

/-- `parser.ParsedHTML`: the accessors of the parsed document that the
rule catalogue reads.  Each field is the result of the corresponding
`ParsedHTML` property (`images`, `html_tag`, `title`, `inputs`, the
`<label>` elements reachable through `find("label", ...)`, `buttons`,
`links`, `headings`, `get_all_ids()`, and `soup.find_all(attrs={"role":
True})`). -/
structure ParsedHTML where
  images : List Tag
  htmlTag : Option Tag
  title : Option String
  inputs : List Tag
  labels : List Tag
  buttons : List Tag
  links : List Tag
  headings : List Tag
  allIds : List String
  roleElems : List Tag
deriving DecidableEq

/-- `soup.find_all("h1")`: the headings whose tag name is `h1`. -/
def ParsedHTML.h1Elements (d : ParsedHTML) : List Tag :=
  d.headings.filter (fun h => h.name == "h1")

/-- `rules.base.WCAGRule.create_finding`, with the per-rule metadata
passed explicitly. -/
def mkFinding (rule_code wcag_reference : String) (wcag_level : WCAGLevel)
    (principle : String) (severity : SeverityLevel)
    (message remediation : String) (element : Option String) (count : Nat) :
    Finding :=
  { rule_code := rule_code
    severity := severity
    message := message
    element := element
    wcag_reference := wcag_reference
    wcag_level := wcag_level
    principle := principle
    remediation := remediation
    count := count }

@[simp] theorem mkFinding_severity (rc wr : String) (wl : WCAGLevel)
    (p : String) (s : SeverityLevel) (m r : String) (e : Option String)
    (c : Nat) : (mkFinding rc wr wl p s m r e c).severity = s := rfl

@[simp] theorem mkFinding_principle (rc wr : String) (wl : WCAGLevel)
    (p : String) (s : SeverityLevel) (m r : String) (e : Option String)
    (c : Nat) : (mkFinding rc wr wl p s m r e c).principle = p := rfl

@[simp] theorem mkFinding_count (rc wr : String) (wl : WCAGLevel)
    (p : String) (s : SeverityLevel) (m r : String) (e : Option String)
    (c : Nat) : (mkFinding rc wr wl p s m r e c).count = c := rfl

/-- Finding constructor of `perceivable.ImageAltTextRule`. -/
def ImageAltTextRule.finding (s : SeverityLevel) (m r : String)
    (e : Option String) (c : Nat) : Finding :=
  mkFinding "IMG_ALT_MISSING" "1.1.1" WCAGLevel.AA "Perceivable" s m r e c

/-- `perceivable.ImageAltTextRule.check`: one Fail summarizing the images
whose `alt` attribute is absent (present-but-empty is compliant),
otherwise one Pass. -/
def ImageAltTextRule.check (d : ParsedHTML) : List Finding :=
  let missing_alt :=
    (d.images.filter (fun img => img.get "alt" == none)).map
      (fun img => strTake img.raw 100)
  match missing_alt with
  | [] =>
      [ImageAltTextRule.finding SeverityLevel.pass
        "All images have alt attributes" "N/A - Check passed" none 1]
  | first :: rest =>
      let n := rest.length + 1
      [ImageAltTextRule.finding SeverityLevel.fail
        s!"{n} images missing alt attribute"
        "Add descriptive alt text to all images. Use alt=\x27\x27 for decorative images."
        (some first) n]

/-- Finding constructor of `perceivable.HTMLLangAttributeRule`. -/
def HTMLLangAttributeRule.finding (s : SeverityLevel) (m r : String)
    (e : Option String) (c : Nat) : Finding :=
  mkFinding "HTML_LANG_MISSING" "3.1.1" WCAGLevel.AA "Understandable" s m r e c

/-- `perceivable.HTMLLangAttributeRule.check`. -/
def HTMLLangAttributeRule.check (d : ParsedHTML) : List Finding :=
  match d.htmlTag with
  | none =>
      [HTMLLangAttributeRule.finding SeverityLevel.fail
        "No <html> tag found"
        "Ensure document has a valid <html> tag with lang attribute" none 1]
  | some tag =>
      let lang := tag.getD "lang" ""
      if lang == "" then
        [HTMLLangAttributeRule.finding SeverityLevel.fail
          "<html> tag missing lang attribute"
          "Add lang attribute to <html> tag (e.g., <html lang=\x27en\x27>)"
          (some (strTake tag.raw 100)) 1]
      else
        [HTMLLangAttributeRule.finding SeverityLevel.pass
          s!"Page language is set to \x27{lang}\x27" "N/A - Check passed" none 1]

/-- Finding constructor of `perceivable.PageTitleRule`. -/
def PageTitleRule.finding (s : SeverityLevel) (m r : String)
    (e : Option String) (c : Nat) : Finding :=
  mkFinding "PAGE_TITLE_MISSING" "2.4.2" WCAGLevel.AA "Operable" s m r e c

/-- `perceivable.PageTitleRule.check`.  `if not title` in the source is
true both for an absent title and for the empty string. -/
def PageTitleRule.check (d : ParsedHTML) : List Finding :=
  match d.title with
  | none =>
      [PageTitleRule.finding SeverityLevel.fail "Page has no <title> element"
        "Add a descriptive <title> element in the <head> section" none 1]
  | some title =>
      if title == "" then
        [PageTitleRule.finding SeverityLevel.fail "Page has no <title> element"
          "Add a descriptive <title> element in the <head> section" none 1]
      else if (strTrim title).length == 0 then
        [PageTitleRule.finding SeverityLevel.fail "Page title is empty"
          "Provide a descriptive, meaningful page title"
          (some s!"<title>{title}</title>") 1]
      else if title.length < 3 then
        [PageTitleRule.finding SeverityLevel.warning
          s!"Page title is very short: \x27{title}\x27"
          "Provide a more descriptive page title (at least a few words)"
          (some s!"<title>{title}</title>") 1]
      else
        [PageTitleRule.finding SeverityLevel.pass
          s!"Page has title: \x27{title}\x27" "N/A - Check passed" none 1]

/-- Finding constructor of `operable.FormLabelRule`. -/
def FormLabelRule.finding (s : SeverityLevel) (m r : String)
    (e : Option String) (c : Nat) : Finding :=
  mkFinding "FORM_LABEL_MISSING" "3.3.2" WCAGLevel.AA "Operable" s m r e c

/-- The per-input label search of `operable.FormLabelRule.check`:
a `<label for=...>` matching a truthy id, a wrapping `<label>` parent,
`aria-label`, `aria-labelledby`, or `title`. -/
def FormLabelRule.hasLabel (d : ParsedHTML) (inp : Tag) : Bool :=
  let byFor :=
    match inp.get "id" with
    | some iid =>
        iid != "" && d.labels.any (fun l => l.get "for" == some iid)
    | none => false
  let byParent := inp.parentName == some "label"
  let byAria := inp.attrTruthy "aria-label" || inp.attrTruthy "aria-labelledby"
  let byTitle := inp.attrTruthy "title"
  byFor || byParent || byAria || byTitle

/-- The `continue` filter of `FormLabelRule.check`: hidden inputs and the
button-like input types are skipped. -/
def FormLabelRule.isRelevant (inp : Tag) : Bool :=
  !(["hidden", "submit", "button", "reset"].contains
      (strLower (inp.getD "type" "text")))

/-- `operable.FormLabelRule.check`. -/
def FormLabelRule.check (d : ParsedHTML) : List Finding :=
  let inputs := d.inputs
  let unlabeled :=
    ((inputs.filter FormLabelRule.isRelevant).filter
        (fun inp => !(FormLabelRule.hasLabel d inp))).map
      (fun inp => strTake inp.raw 100)
  match unlabeled with
  | first :: rest =>
      let n := rest.length + 1
      [FormLabelRule.finding SeverityLevel.fail
        s!"{n} form inputs missing labels"
        "Add <label> elements with \x27for\x27 attribute, or use aria-label"
        (some first) n]
  | [] =>
      if inputs.length > 0 then
        let k := inputs.length
        [FormLabelRule.finding SeverityLevel.pass
          s!"All {k} form inputs have labels" "N/A - Check passed" none 1]
      else
        [FormLabelRule.finding SeverityLevel.pass
          "No form inputs found on page" "N/A - No inputs to check" none 1]

/-- Finding constructor of `operable.ButtonAccessibleNameRule`. -/
def ButtonAccessibleNameRule.finding (s : SeverityLevel) (m r : String)
    (e : Option String) (c : Nat) : Finding :=
  mkFinding "BUTTON_NAME_MISSING" "4.1.2" WCAGLevel.AA "Operable" s m r e c

/-- The accessible-name search of `ButtonAccessibleNameRule.check`:
text content, `value`, `aria-label`, `aria-labelledby`, or `title`. -/
def ButtonAccessibleNameRule.hasName (btn : Tag) : Bool :=
  (strTrim btn.text) != "" || btn.attrTruthy "value" || btn.attrTruthy "aria-label"
    || btn.attrTruthy "aria-labelledby" || btn.attrTruthy "title"

/-- `operable.ButtonAccessibleNameRule.check`. -/
def ButtonAccessibleNameRule.check (d : ParsedHTML) : List Finding :=
  let buttons := d.buttons
  let unnamed :=
    (buttons.filter (fun btn => !(ButtonAccessibleNameRule.hasName btn))).map
      (fun btn => strTake btn.raw 100)
  match unnamed with
  | first :: rest =>
      let n := rest.length + 1
      [ButtonAccessibleNameRule.finding SeverityLevel.fail
        s!"{n} buttons missing accessible names"
        "Add text content, value, aria-label, or title to buttons"
        (some first) n]
  | [] =>
      if buttons.length > 0 then
        let k := buttons.length
        [ButtonAccessibleNameRule.finding SeverityLevel.pass
          s!"All {k} buttons have accessible names" "N/A - Check passed" none 1]
      else
        [ButtonAccessibleNameRule.finding SeverityLevel.pass
          "No buttons found on page" "N/A - No buttons to check" none 1]

/-- Finding constructor of `operable.LinkTextRule`. -/
def LinkTextRule.finding (s : SeverityLevel) (m r : String)
    (e : Option String) (c : Nat) : Finding :=
  mkFinding "LINK_TEXT_EMPTY" "2.4.4" WCAGLevel.AA "Operable" s m r e c

/-- The vague phrase set of `LinkTextRule.check`. -/
def LinkTextRule.vague_texts : List String :=
  ["click here", "read more", "more", "here", "link"]

/-- The effective text of a link in `LinkTextRule.check`: the own text
stripped and lowercased; when that is empty, the stripped `aria-label`;
when that is empty too, the stripped `alt` of the first contained image.
Only the own text is lowercased by the source. -/
def LinkTextRule.effectiveText (link : Tag) : String :=
  let text := strLower (strTrim link.text)
  let aria_label := strTrim (link.getD "aria-label" "")
  let img_alt :=
    match link.firstImgAlt with
    | none => ""
    | some alt => strTrim (alt.getD "")
  if text != "" then text
  else if aria_label != "" then aria_label
  else img_alt

/-- `operable.LinkTextRule.check`: links with no effective text are one
Fail, links whose effective text is in the vague set are one Warning,
and when neither list is non-empty a single Pass is emitted. -/
def LinkTextRule.check (d : ParsedHTML) : List Finding :=
  let links := d.links
  let empty_links :=
    (links.filter (fun l => LinkTextRule.effectiveText l == "")).map
      (fun l => strTake l.raw 100)
  let vague_links :=
    (links.filter (fun l =>
        LinkTextRule.effectiveText l != ""
          && LinkTextRule.vague_texts.contains (LinkTextRule.effectiveText l))).map
      (fun l => strTake l.raw 100)
  let emptyFindings :=
    match empty_links with
    | [] => []
    | first :: rest =>
        let n := rest.length + 1
        [LinkTextRule.finding SeverityLevel.fail
          s!"{n} links have no text or accessible name"
          "Add descriptive text or aria-label to links" (some first) n]
  let vagueFindings :=
    match vague_links with
    | [] => []
    | first :: rest =>
        let n := rest.length + 1
        [LinkTextRule.finding SeverityLevel.warning
          s!"{n} links have vague text (e.g., \x27click here\x27)"
          "Use descriptive link text that makes sense out of context"
          (some first) n]
  let findings := emptyFindings ++ vagueFindings
  match findings with
  | [] =>
      if links.length > 0 then
        let k := links.length
        [LinkTextRule.finding SeverityLevel.pass
          s!"All {k} links have meaningful text" "N/A - Check passed" none 1]
      else
        [LinkTextRule.finding SeverityLevel.pass
          "No links found on page" "N/A - No links to check" none 1]
  | f :: fs => f :: fs

/-- Finding constructor of `understandable.HeadingHierarchyRule`. -/
def HeadingHierarchyRule.finding (s : SeverityLevel) (m r : String)
    (e : Option String) (c : Nat) : Finding :=
  mkFinding "HEADING_SKIP_LEVEL" "1.3.1" WCAGLevel.AA "Understandable" s m r e c

/-- `int(h.name[1])`: the numeral taken from the second character of the
tag name (48 is the ASCII code of the digit zero). -/
def headingLevel (h : Tag) : Nat :=
  (h.name.toList.getD 1 (Char.ofNat 48)).toNat - 48

/-- The inner loop of `HeadingHierarchyRule.check` after the first
heading: a message is recorded whenever a level jumps by more than one
above the previous heading level. -/
def HeadingHierarchyRule.skipsAfter (prev : Nat) : List Tag → List String
  | [] => []
  | h :: hs =>
      let level := headingLevel h
      let t := strTake (strTrim h.text) 30
      (if prev + 1 < level then
          [s!"Skipped from {prev} to {level} at heading: \x27{t}\x27"]
        else []) ++ HeadingHierarchyRule.skipsAfter level hs

/-- The `skipped` list of `HeadingHierarchyRule.check`: the first heading
must be level 1, later headings must not jump more than one level. -/
def HeadingHierarchyRule.skipped : List Tag → List String
  | [] => []
  | h :: hs =>
      let level := headingLevel h
      let nm := h.name
      (if level != 1 then
          [s!"First heading is {nm}, should start with h1"]
        else []) ++ HeadingHierarchyRule.skipsAfter level hs

/-- `understandable.HeadingHierarchyRule.check`.  A document with no
headings is a Warning, not a Pass. -/
def HeadingHierarchyRule.check (d : ParsedHTML) : List Finding :=
  match d.headings with
  | [] =>
      [HeadingHierarchyRule.finding SeverityLevel.warning
        "No heading elements found on page"
        "Add heading structure (h1-h6) to organize content" none 1]
  | h :: hs =>
      match HeadingHierarchyRule.skipped (h :: hs) with
      | [] =>
          let k := (h :: hs).length
          [HeadingHierarchyRule.finding SeverityLevel.pass
            s!"Heading hierarchy is correct ({k} headings)"
            "N/A - Check passed" none 1]
      | first :: rest =>
          let n := rest.length + 1
          [HeadingHierarchyRule.finding SeverityLevel.warning
            s!"Heading hierarchy has {n} issues"
            "Use sequential heading levels (h1 -> h2 -> h3) without skipping"
            (some first) n]

/-- Finding constructor of `understandable.H1ExistsRule`. -/
def H1ExistsRule.finding (s : SeverityLevel) (m r : String)
    (e : Option String) (c : Nat) : Finding :=
  mkFinding "H1_MISSING_OR_MULTIPLE" "2.4.6" WCAGLevel.AA "Understandable" s m r e c

/-- `understandable.H1ExistsRule.check`: zero or several `<h1>` elements
are a Warning, exactly one is a Pass. -/
def H1ExistsRule.check (d : ParsedHTML) : List Finding :=
  match d.h1Elements with
  | [] =>
      [H1ExistsRule.finding SeverityLevel.warning
        "No <h1> element found on page"
        "Add a single <h1> element to serve as the main page heading" none 1]
  | [h] =>
      let t := strTake (strTrim h.text) 50
      [H1ExistsRule.finding SeverityLevel.pass
        s!"Page has one <h1>: \x27{t}\x27" "N/A - Check passed" none 1]
  | h1 :: h2 :: hs =>
      let h1_count := (h1 :: h2 :: hs).length
      let joined := String.intercalate ", "
        (((h1 :: h2 :: hs).take 3).map (fun h => strTake (strTrim h.text) 30))
      [H1ExistsRule.finding SeverityLevel.warning
        s!"Multiple <h1> elements found ({h1_count}): {joined}"
        "Use only one <h1> per page for the main heading" none h1_count]

/-- Finding constructor of `robust.DuplicateIDRule`. -/
def DuplicateIDRule.finding (s : SeverityLevel) (m r : String)
    (e : Option String) (c : Nat) : Finding :=
  mkFinding "DUPLICATE_ID" "4.1.1" WCAGLevel.AA "Robust" s m r e c

/-- The `duplicates` set of `DuplicateIDRule.check`: the distinct id
values that occur more than once, each listed once. -/
def duplicateIds (ids : List String) : List String :=
  (ids.filter (fun v => 1 < ids.count v)).dedup

/-- `robust.DuplicateIDRule.check`: one Fail counting the distinct
duplicated values, one Pass when all ids are unique or none exist. -/
def DuplicateIDRule.check (d : ParsedHTML) : List Finding :=
  let all_ids := d.allIds
  let duplicates := duplicateIds all_ids
  match duplicates with
  | first :: rest =>
      let n := rest.length + 1
      let dup_list := String.intercalate ", "
        (((first :: rest).take 5).map (fun v => "\x27" ++ v ++ "\x27"))
      [DuplicateIDRule.finding SeverityLevel.fail
        s!"{n} duplicate IDs found: {dup_list}"
        "Ensure all ID attributes are unique within the document" none n]
  | [] =>
      if all_ids.length > 0 then
        let k := all_ids.length
        [DuplicateIDRule.finding SeverityLevel.pass
          s!"All {k} IDs are unique" "N/A - Check passed" none 1]
      else
        [DuplicateIDRule.finding SeverityLevel.pass
          "No ID attributes found" "N/A - No IDs to check" none 1]

/-- Finding constructor of `robust.ARIARoleValidRule`. -/
def ARIARoleValidRule.finding (s : SeverityLevel) (m r : String)
    (e : Option String) (c : Nat) : Finding :=
  mkFinding "ARIA_ROLE_INVALID" "4.1.2" WCAGLevel.AA "Robust" s m r e c

/-- The whitelist `ARIARoleValidRule.VALID_ROLES` of recognized ARIA 1.2
roles. -/
def ARIARoleValidRule.validRoles : List String :=
  ["alert", "alertdialog", "application", "article", "banner", "button",
   "checkbox", "columnheader", "combobox", "complementary", "contentinfo",
   "definition", "dialog", "directory", "document", "feed", "figure",
   "form", "grid", "gridcell", "group", "heading", "img", "link", "list",
   "listbox", "listitem", "log", "main", "marquee", "math", "menu",
   "menubar", "menuitem", "menuitemcheckbox", "menuitemradio", "navigation",
   "none", "note", "option", "presentation", "progressbar", "radio",
   "radiogroup", "region", "row", "rowgroup", "rowheader", "scrollbar",
   "search", "searchbox", "separator", "slider", "spinbutton", "status",
   "switch", "tab", "table", "tablist", "tabpanel", "term", "textbox",
   "timer", "toolbar", "tooltip", "tree", "treegrid", "treeitem"]

/-- `robust.ARIARoleValidRule.check`: every element carrying a `role`
attribute whose stripped lowercased value is non-empty and outside the
whitelist is collected into one Fail. -/
def ARIARoleValidRule.check (d : ParsedHTML) : List Finding :=
  let elements_with_role := d.roleElems
  let invalid_roles :=
    (elements_with_role.map
        (fun e => (strLower (strTrim (e.getD "role" "")), strTake e.raw 100))).filter
      (fun p => p.1 != "" && !(ARIARoleValidRule.validRoles.contains p.1))
  match invalid_roles with
  | first :: rest =>
      let n := rest.length + 1
      let role_names := String.intercalate ", "
        (((first :: rest).take 5).map (fun q => "\x27" ++ q.1 ++ "\x27"))
      [ARIARoleValidRule.finding SeverityLevel.fail
        s!"{n} invalid ARIA roles found: {role_names}"
        "Use only valid ARIA 1.2 role values" (some first.2) n]
  | [] =>
      if elements_with_role.length > 0 then
        let k := elements_with_role.length
        [ARIARoleValidRule.finding SeverityLevel.pass
          s!"All {k} ARIA roles are valid" "N/A - Check passed" none 1]
      else
        [ARIARoleValidRule.finding SeverityLevel.pass
          "No ARIA roles found" "N/A - No roles to check" none 1]

/-- The rule registry `rules.ALL_RULES`, in catalogue order. -/
def ALL_RULES : List (ParsedHTML → List Finding) :=
  [ImageAltTextRule.check, HTMLLangAttributeRule.check, PageTitleRule.check,
   FormLabelRule.check, ButtonAccessibleNameRule.check, LinkTextRule.check,
   HeadingHierarchyRule.check, H1ExistsRule.check,
   DuplicateIDRule.check, ARIARoleValidRule.check]

/-- The rule loop of `ScanEngine.scan_url`: every rule of the catalogue is
run in order and the finding lists are concatenated. -/
def scanFindings (d : ParsedHTML) : List Finding :=
  ALL_RULES.foldl (fun acc r => acc ++ r d) []

/-- `passed = sum(1 for f in findings if f.severity.value == "pass")`. -/
def passedCount (fs : List Finding) : Nat :=
  fs.countP (fun f => f.severity == SeverityLevel.pass)

/-- `warnings = sum(1 for f in findings if f.severity.value == "warning")`. -/
def warningCount (fs : List Finding) : Nat :=
  fs.countP (fun f => f.severity == SeverityLevel.warning)

/-- `failures = sum(1 for f in findings if f.severity.value == "fail")`. -/
def failureCount (fs : List Finding) : Nat :=
  fs.countP (fun f => f.severity == SeverityLevel.fail)

/-- `total = len(findings)`. -/
def totalChecks (fs : List Finding) : Nat := fs.length

/-- The score computation of `ScanEngine.scan_url` before rounding:
`((passed + warnings * 0.5) / total) * 100` when `total > 0`, otherwise
`100.0`.  The float arithmetic is modelled by exact rationals. -/
def rawScore (fs : List Finding) : ℚ :=
  let passed := passedCount fs
  let warnings := warningCount fs
  let total := totalChecks fs
  if 0 < total then
    (((passed : ℚ) + (warnings : ℚ) * (1 / 2)) / (total : ℚ)) * 100
  else 100

/-- `round(score, 1)`: rounding to one decimal place. -/
def roundTo1 (q : ℚ) : ℚ := ((round (q * 10) : ℤ) : ℚ) / 10

/-- The stored score of a finding list: `round(score, 1)`. -/
def scoreOf (fs : List Finding) : ℚ := roundTo1 (rawScore fs)

/-- The score `ScanEngine.scan_url` reports for a document. -/
def scanScore (d : ParsedHTML) : ℚ := scoreOf (scanFindings d)

/-- The `total_checks` counter of a scan of a document. -/
def scanTotal (d : ParsedHTML) : Nat := totalChecks (scanFindings d)

/-- The per-principle bucket counting of `ScanEngine.scan_url`: every
finding whose severity is `warning` or `fail` increments the counter of
its own `principle` string; this is the number of such findings carrying
the given principle. -/
def principleIssueCount (fs : List Finding) (p : String) : Nat :=
  fs.countP (fun f =>
    (f.severity == SeverityLevel.warning || f.severity == SeverityLevel.fail)
      && f.principle == p)

/-- `perceivable_issues` of a scan. -/
def perceivableIssues (d : ParsedHTML) : Nat :=
  principleIssueCount (scanFindings d) "Perceivable"

/-- `operable_issues` of a scan. -/
def operableIssues (d : ParsedHTML) : Nat :=
  principleIssueCount (scanFindings d) "Operable"

/-- `understandable_issues` of a scan. -/
def understandableIssues (d : ParsedHTML) : Nat :=
  principleIssueCount (scanFindings d) "Understandable"

/-- `robust_issues` of a scan. -/
def robustIssues (d : ParsedHTML) : Nat :=
  principleIssueCount (scanFindings d) "Robust"

/-- The typed failure taxonomy of `fetcher.URLFetcher.fetch` (each variant
is raised as a `ValueError` carrying a message in the source). -/
inductive FetchError where
  | httpStatus (code : Nat)
  | unsupportedContentType (ct : String)
  | contentTooLarge (size maxSize : Nat)
  | timeout
  | networkError (cause : String)
deriving DecidableEq

/-- The human-readable message the fetcher attaches to each failure. -/
def FetchError.message : FetchError → String
  | .httpStatus code => s!"HTTP {code}"
  | .unsupportedContentType ct =>
      s!"Invalid content type: {ct}. Expected text/html"
  | .contentTooLarge size maxSize =>
      s!"Content too large: {size} bytes (max: {maxSize} bytes)"
  | .timeout => "Request timeout"
  | .networkError cause => s!"Failed to fetch URL: {cause}"

/-- Whether `needle` occurs at the start of `hay`. -/
def matchesAt (needle hay : List Char) : Bool :=
  match needle, hay with
  | [], _ => true
  | _ :: _, [] => false
  | n :: ns, h :: hs => n == h && matchesAt ns hs

/-- Whether `needle` occurs anywhere inside `hay`: the Python substring
test `needle in hay`. -/
def containsSeq (needle : List Char) : List Char → Bool
  | [] => needle.isEmpty
  | h :: hs => matchesAt needle (h :: hs) || containsSeq needle hs

/-- The delivered HTTP response as seen by `URLFetcher.fetch` after the
request returns: status code, `content-type` header value, and body text
(its length standing for `len(response.content)`). -/
structure HttpResponse where
  status : Nat
  contentType : String
  content : String
deriving DecidableEq

/-- The response checks of `URLFetcher.fetch` in source order:
`raise_for_status()` (an error status is 400 or above), the content-type
gate (`"text/html" not in content_type`), and the size gate
(`len(response.content) > max_size`); only then is the text returned.
There is no truncation path. -/
def fetchCheck (maxSize : Nat) (resp : HttpResponse) :
    Except FetchError String :=
  if 400 ≤ resp.status then
    .error (.httpStatus resp.status)
  else if !(containsSeq "text/html".toList resp.contentType.toList) then
    .error (.unsupportedContentType resp.contentType)
  else if maxSize < resp.content.length then
    .error (.contentTooLarge resp.content.length maxSize)
  else
    .ok resp.content

/-- `models.ScanStatus`. -/
inductive ScanStatus where
  | pending
  | scanning
  | complete
  | failed
deriving DecidableEq

/-- The terminal scan record of `ScanEngine.scan_url`: on the success path
status, score, findings and the counters are all written; on the failure
path only the Failed status and the error message are written, so the
score stays absent and the finding list stays empty. -/
structure ScanOutcome where
  status : ScanStatus
  score : Option ℚ
  findings : List Finding
  total_checks : Nat
  passed_checks : Nat
  warnings : Nat
  failures : Nat
  error_message : Option String
deriving DecidableEq

/-- The orchestration of `ScanEngine.scan_url` after the URL is fixed: the
fetch outcome either aborts the scan into a Failed record carrying the
error message (the `except` branch of the source, where score and
findings were never computed), or the text is parsed (the parse function
abstracts BeautifulSoup) and the catalogue, counters and score run. -/
def runScan (maxSize : Nat) (resp : HttpResponse)
    (parse : String → ParsedHTML) : ScanOutcome :=
  match fetchCheck maxSize resp with
  | .error e =>
      { status := ScanStatus.failed
        score := none
        findings := []
        total_checks := 0
        passed_checks := 0
        warnings := 0
        failures := 0
        error_message := some e.message }
  | .ok text =>
      let fs := scanFindings (parse text)
      { status := ScanStatus.complete
        score := some (scoreOf fs)
        findings := fs
        total_checks := totalChecks fs
        passed_checks := passedCount fs
        warnings := warningCount fs
        failures := failureCount fs
        error_message := none }

/-- A document with no elements at all. -/
def emptyDoc : ParsedHTML :=
  { images := []
    htmlTag := none
    title := none
    inputs := []
    labels := []
    buttons := []
    links := []
    headings := []
    allIds := []
    roleElems := [] }

/-- `<html lang="en">`. -/
def htmlTagEn : Tag :=
  { name := "html"
    attrs := [("lang", "en")]
    text := ""
    parentName := none
    firstImgAlt := none
    raw := "<html lang=en>" }

/-- `<h1>Welcome</h1>`. -/
def h1Welcome : Tag :=
  { name := "h1"
    attrs := []
    text := "Welcome"
    parentName := some "body"
    firstImgAlt := none
    raw := "<h1>Welcome</h1>" }

/-- A fully compliant document: language set, a real title, one `h1`, and
nothing else; every rule of the catalogue passes on it. -/
def goodDoc : ParsedHTML :=
  { emptyDoc with
    htmlTag := some htmlTagEn
    title := some "Welcome Page"
    headings := [h1Welcome] }

/-- `<img src="a.png">`: no `alt` attribute at all. -/
def imgNoAlt : Tag :=
  { name := "img"
    attrs := [("src", "a.png")]
    text := ""
    parentName := some "body"
    firstImgAlt := none
    raw := "<img src=a.png>" }

/-- `<img src="b.png" alt="">`: present but empty `alt`. -/
def imgEmptyAlt : Tag :=
  { name := "img"
    attrs := [("src", "b.png"), ("alt", "")]
    text := ""
    parentName := some "body"
    firstImgAlt := none
    raw := "<img src=b.png alt>" }

/-- A document holding exactly the two images of the spec example. -/
def twoImgDoc : ParsedHTML := { emptyDoc with images := [imgNoAlt, imgEmptyAlt] }

/-- A document with exactly two elements sharing `id="x"`. -/
def dupIdDoc : ParsedHTML := { emptyDoc with allIds := ["x", "x"] }

/-- A document with exactly three elements sharing `id="x"`. -/
def tripleIdDoc : ParsedHTML := { emptyDoc with allIds := ["x", "x", "x"] }

/-- `<a href="#">Click here</a>`. -/
def clickHereLink : Tag :=
  { name := "a"
    attrs := [("href", "#")]
    text := "Click here"
    parentName := some "body"
    firstImgAlt := none
    raw := "<a href=#>Click here</a>" }

/-- A document whose only link is `<a href="#">Click here</a>`. -/
def clickHereDoc : ParsedHTML := { emptyDoc with links := [clickHereLink] }

/-- A link with no own text whose `aria-label` is `Click Here`: its
effective text differs from every vague phrase only by letter case. -/
def ariaClickLink : Tag :=
  { name := "a"
    attrs := [("href", "#"), ("aria-label", "Click Here")]
    text := ""
    parentName := some "body"
    firstImgAlt := none
    raw := "<a href=# aria-label=Click-Here></a>" }

/-- A document whose only link carries the capitalized aria-label. -/
def ariaClickDoc : ParsedHTML := { emptyDoc with links := [ariaClickLink] }

/-- A link whose text contains the vague phrase `click here` only as a
proper substring. -/
def verboseLink : Tag :=
  { name := "a"
    attrs := [("href", "#")]
    text := "Click here to read the full accessibility report"
    parentName := some "body"
    firstImgAlt := none
    raw := "<a href=#>Click here to read the full accessibility report</a>" }

/-- A document whose only link has verbose (non-vague) text. -/
def verboseLinkDoc : ParsedHTML := { emptyDoc with links := [verboseLink] }

/-- An HTML response whose body exceeds any small size bound. -/
def oversizeResp : HttpResponse :=
  { status := 200
    contentType := "text/html; charset=utf-8"
    content := "<html><body>abcdefgh</body></html>" }

/-- A sample finding used to instantiate counting facts. -/
def sampleFinding : Finding :=
  mkFinding "IMG_ALT_MISSING" "1.1.1" WCAGLevel.AA "Perceivable"
    SeverityLevel.fail "3 images missing alt text"
    "Add descriptive alt text to all images" none 3

/-- Every finding severity is exactly one of the three levels, so the
three counters always partition the finding list. -/
theorem severity_partition (fs : List Finding) :
    passedCount fs + warningCount fs + failureCount fs = fs.length := by
  induction fs with
  | nil => rfl
  | cons f fs ih =>
      simp only [passedCount, warningCount, failureCount,
        List.countP_cons, List.length_cons] at *
      cases h : f.severity <;> simp [h] <;> omega

/-- The unrounded score is nonnegative. -/
theorem rawScore_nonneg (fs : List Finding) : 0 ≤ rawScore fs := by
  simp only [rawScore]
  split
  · positivity
  · norm_num

/-- The unrounded score is at most 100. -/
theorem rawScore_le_100 (fs : List Finding) : rawScore fs ≤ 100 := by
  have hpw : passedCount fs + warningCount fs ≤ fs.length := by
    have := severity_partition fs
    omega
  simp only [rawScore]
  split
  · rename_i h
    have ht : (0 : ℚ) < (totalChecks fs : ℚ) := by exact_mod_cast h
    rw [div_mul_eq_mul_div, div_le_iff₀ ht]
    have hc : ((passedCount fs : ℚ) + (warningCount fs : ℚ))
        ≤ (totalChecks fs : ℚ) := by
      unfold totalChecks
      exact_mod_cast hpw
    have hw : (0 : ℚ) ≤ (warningCount fs : ℚ) := Nat.cast_nonneg _
    nlinarith
  · norm_num

/-- Rounding to one decimal preserves nonnegativity. -/
theorem roundTo1_nonneg (q : ℚ) (h : 0 ≤ q) : 0 ≤ roundTo1 q := by
  unfold roundTo1
  have h2 : (0 : ℤ) ≤ round (q * 10) := by
    rw [round_eq]
    apply Int.floor_nonneg.mpr
    linarith
  have h3 : (0 : ℚ) ≤ ((round (q * 10) : ℤ) : ℚ) := by exact_mod_cast h2
  positivity

/-- Rounding to one decimal preserves the bound 100. -/
theorem roundTo1_le_100 (q : ℚ) (h : q ≤ 100) : roundTo1 q ≤ 100 := by
  unfold roundTo1
  have h2 : round (q * 10) ≤ 1000 := by
    rw [round_eq]
    have hf : (⌊q * 10 + 1 / 2⌋ : ℚ) ≤ q * 10 + 1 / 2 := Int.floor_le _
    have hlt : (⌊q * 10 + 1 / 2⌋ : ℚ) < 1001 := by linarith
    have : ⌊q * 10 + 1 / 2⌋ < (1001 : ℤ) := by exact_mod_cast hlt
    omega
  have h3 : ((round (q * 10) : ℤ) : ℚ) ≤ 1000 := by exact_mod_cast h2
  rw [div_le_iff₀ (by norm_num : (0 : ℚ) < 10)]
  linarith

/-- A total of zero produces exactly the vacuous score. -/
theorem scoreOf_of_total_zero (fs : List Finding) (h : totalChecks fs = 0) :
    scoreOf fs = 100 := by
  simp only [scoreOf, rawScore, h]
  norm_num [roundTo1]

/-- The shared output discipline of the catalogue: a rule emits at least
one finding, stamps every finding with its own fixed principle, and when
every emitted finding passes the output is exactly one Pass finding. -/
def GoodRuleOutput (p : String) (fs : List Finding) : Prop :=
  fs ≠ [] ∧ (∀ f ∈ fs, f.principle = p) ∧
    ((∀ f ∈ fs, f.severity = SeverityLevel.pass) →
      fs.map Finding.severity = [SeverityLevel.pass])

theorem imageAlt_good (d : ParsedHTML) :
    GoodRuleOutput "Perceivable" (ImageAltTextRule.check d) := by
  simp only [GoodRuleOutput, ImageAltTextRule.check]
  split <;> simp [ImageAltTextRule.finding]

theorem htmlLang_good (d : ParsedHTML) :
    GoodRuleOutput "Understandable" (HTMLLangAttributeRule.check d) := by
  simp only [GoodRuleOutput, HTMLLangAttributeRule.check]
  split
  · simp [HTMLLangAttributeRule.finding]
  · split <;> simp [HTMLLangAttributeRule.finding]

theorem pageTitle_good (d : ParsedHTML) :
    GoodRuleOutput "Operable" (PageTitleRule.check d) := by
  simp only [GoodRuleOutput, PageTitleRule.check]
  split
  · simp [PageTitleRule.finding]
  · (repeat' split) <;> simp [PageTitleRule.finding]

theorem formLabel_good (d : ParsedHTML) :
    GoodRuleOutput "Operable" (FormLabelRule.check d) := by
  simp only [GoodRuleOutput, FormLabelRule.check]
  split
  · simp [FormLabelRule.finding]
  · split <;> simp [FormLabelRule.finding]

theorem button_good (d : ParsedHTML) :
    GoodRuleOutput "Operable" (ButtonAccessibleNameRule.check d) := by
  simp only [GoodRuleOutput, ButtonAccessibleNameRule.check]
  split
  · simp [ButtonAccessibleNameRule.finding]
  · split <;> simp [ButtonAccessibleNameRule.finding]

theorem linkText_good (d : ParsedHTML) :
    GoodRuleOutput "Operable" (LinkTextRule.check d) := by
  simp only [GoodRuleOutput, LinkTextRule.check]
  split
  · split <;> simp [LinkTextRule.finding]
  · rename_i f fs heq
    split at heq <;> split at heq <;>
      simp only [List.nil_append, List.append_nil, List.cons_append] at heq <;>
        cases heq <;> simp [LinkTextRule.finding]

theorem headingHierarchy_good (d : ParsedHTML) :
    GoodRuleOutput "Understandable" (HeadingHierarchyRule.check d) := by
  simp only [GoodRuleOutput, HeadingHierarchyRule.check]
  split
  · simp [HeadingHierarchyRule.finding]
  · split <;> simp [HeadingHierarchyRule.finding]

theorem h1Exists_good (d : ParsedHTML) :
    GoodRuleOutput "Understandable" (H1ExistsRule.check d) := by
  simp only [GoodRuleOutput, H1ExistsRule.check]
  split <;> simp [H1ExistsRule.finding]

theorem duplicateId_good (d : ParsedHTML) :
    GoodRuleOutput "Robust" (DuplicateIDRule.check d) := by
  simp only [GoodRuleOutput, DuplicateIDRule.check]
  split
  · simp [DuplicateIDRule.finding]
  · split <;> simp [DuplicateIDRule.finding]

theorem ariaRole_good (d : ParsedHTML) :
    GoodRuleOutput "Robust" (ARIARoleValidRule.check d) := by
  simp only [GoodRuleOutput, ARIARoleValidRule.check]
  split
  · simp [ARIARoleValidRule.finding]
  · split <;> simp [ARIARoleValidRule.finding]

/-- The scan concatenates the ten rule outputs in catalogue order. -/
theorem scanFindings_eq (d : ParsedHTML) :
    scanFindings d =
      ImageAltTextRule.check d ++ HTMLLangAttributeRule.check d
        ++ PageTitleRule.check d ++ FormLabelRule.check d
        ++ ButtonAccessibleNameRule.check d ++ LinkTextRule.check d
        ++ HeadingHierarchyRule.check d ++ H1ExistsRule.check d
        ++ DuplicateIDRule.check d ++ ARIARoleValidRule.check d := by
  simp [scanFindings, ALL_RULES]

/-- The four fixed principle buckets of `ScanEngine.scan_url`. -/
def fourPrinciples : List String :=
  ["Perceivable", "Operable", "Understandable", "Robust"]

/-- When every finding principle lies in the four fixed buckets, the four
bucket counters add up to the warning-or-fail count. -/
theorem sum_principle_eq (fs : List Finding)
    (h : ∀ f ∈ fs, f.principle ∈ fourPrinciples) :
    principleIssueCount fs "Perceivable" + principleIssueCount fs "Operable"
      + principleIssueCount fs "Understandable"
      + principleIssueCount fs "Robust"
      = warningCount fs + failureCount fs := by
  induction fs with
  | nil => rfl
  | cons f fs ih =>
      have hf := h f (List.mem_cons_self f fs)
      have ih2 := ih (fun g hg => h g (List.mem_cons_of_mem f hg))
      simp only [fourPrinciples, List.mem_cons, List.not_mem_nil, or_false] at hf
      simp only [principleIssueCount, warningCount, failureCount] at ih2
      simp only [principleIssueCount, warningCount, failureCount,
        List.countP_cons]
      cases hs : f.severity <;>
        rcases hf with hp | hp | hp | hp <;>
          simp [hs, hp] <;> omega

/-- Every finding of a scan carries one of the four fixed principles. -/
theorem scanFindings_principle (d : ParsedHTML) :
    ∀ f ∈ scanFindings d, f.principle ∈ fourPrinciples := by
  intro f hf
  rw [scanFindings_eq] at hf
  simp only [List.mem_append] at hf
  simp only [fourPrinciples, List.mem_cons, List.not_mem_nil, or_false]
  rcases hf with ((((((((hf | hf) | hf) | hf) | hf) | hf) | hf) | hf) | hf) | hf
  · exact Or.inl ((imageAlt_good d).2.1 f hf)
  · exact Or.inr (Or.inr (Or.inl ((htmlLang_good d).2.1 f hf)))
  · exact Or.inr (Or.inl ((pageTitle_good d).2.1 f hf))
  · exact Or.inr (Or.inl ((formLabel_good d).2.1 f hf))
  · exact Or.inr (Or.inl ((button_good d).2.1 f hf))
  · exact Or.inr (Or.inl ((linkText_good d).2.1 f hf))
  · exact Or.inr (Or.inr (Or.inl ((headingHierarchy_good d).2.1 f hf)))
  · exact Or.inr (Or.inr (Or.inl ((h1Exists_good d).2.1 f hf)))
  · exact Or.inr (Or.inr (Or.inr ((duplicateId_good d).2.1 f hf)))
  · exact Or.inr (Or.inr (Or.inr ((ariaRole_good d).2.1 f hf)))

/-- Claim C1: for every finding list, a total of 0 scores 100.0, and
otherwise the score is ((passed + 0.5*warnings) / total) * 100 rounded to
one decimal place, where passed, warnings and failures count the findings
by severity. -/
theorem scan_score_formula (fs : List Finding) :
    (totalChecks fs = 0 → scoreOf fs = 100) ∧
    (totalChecks fs ≠ 0 →
      scoreOf fs =
        roundTo1 ((((passedCount fs : ℚ) + (1 / 2) * (warningCount fs : ℚ))
          / (totalChecks fs : ℚ)) * 100)) := by
  constructor
  · exact scoreOf_of_total_zero fs
  · intro h
    have hpos : 0 < totalChecks fs := Nat.pos_of_ne_zero h
    simp only [scoreOf, rawScore]
    rw [if_pos hpos]
    congr 1
    ring

/-- Witness for C1 at the empty list and at a one-finding list. -/
theorem scan_score_formula_witness :
    scoreOf ([] : List Finding) = 100 ∧
      scoreOf [sampleFinding] =
        roundTo1 ((((passedCount [sampleFinding] : ℚ)
          + (1 / 2) * (warningCount [sampleFinding] : ℚ))
          / (totalChecks [sampleFinding] : ℚ)) * 100) :=
  ⟨(scan_score_formula []).1 rfl,
    (scan_score_formula [sampleFinding]).2 (by decide)⟩

/-- Claim C2, amended: the score always lies in [0, 100] and a total of 0
scores 100.0, but the converse fails: a fully passing scan also scores
100.0 while its total is 10. -/
theorem score_range_and_vacuous :
    (∀ fs : List Finding, 0 ≤ scoreOf fs ∧ scoreOf fs ≤ 100 ∧
      (totalChecks fs = 0 → scoreOf fs = 100)) ∧
    scanScore goodDoc = 100 ∧ scanTotal goodDoc = 10 := by
  refine ⟨fun fs => ⟨roundTo1_nonneg _ (rawScore_nonneg fs),
    roundTo1_le_100 _ (rawScore_le_100 fs), scoreOf_of_total_zero fs⟩,
    ?_, by decide⟩
  have hp : passedCount (scanFindings goodDoc) = 10 := by decide
  have hw : warningCount (scanFindings goodDoc) = 0 := by decide
  have ht : totalChecks (scanFindings goodDoc) = 10 := by decide
  unfold scanScore scoreOf rawScore roundTo1
  rw [hp, hw, ht]
  norm_num

/-- Witness for C2 at the empty finding list. -/
theorem score_range_witness :
    0 ≤ scoreOf ([] : List Finding) ∧ scoreOf ([] : List Finding) ≤ 100 ∧
      scoreOf ([] : List Finding) = 100 := by
  have h := score_range_and_vacuous.1 []
  exact ⟨h.1, h.2.1, h.2.2 rfl⟩

/-- Counterexample to C2 as stated: a fully compliant document scores
exactly 100.0 while its total number of checks is not 0, so score = 100.0
does not happen exactly when total_checks = 0. -/
theorem score_one_hundred_counterexample :
    scanScore goodDoc = 100 ∧ scanTotal goodDoc ≠ 0 := by
  constructor
  · have hp : passedCount (scanFindings goodDoc) = 10 := by decide
    have hw : warningCount (scanFindings goodDoc) = 0 := by decide
    have ht : totalChecks (scanFindings goodDoc) = 10 := by decide
    unfold scanScore scoreOf rawScore roundTo1
    rw [hp, hw, ht]
    norm_num
  · decide

/-- Claim C3, amended: every rule with a not-applicable branch (image-alt
with no images, form-label with no inputs, button-name with no buttons,
link-text with no links, duplicate-ID with no ids, ARIA-role with no role
carriers) emits exactly one Pass finding, but the heading-hierarchy rule
treats a document with no headings as exactly one Warning, not a Pass. -/
theorem inapplicable_rule_outputs (d : ParsedHTML) :
    (d.images = [] →
      (ImageAltTextRule.check d).map Finding.severity = [SeverityLevel.pass]) ∧
    (d.inputs = [] →
      (FormLabelRule.check d).map Finding.severity = [SeverityLevel.pass]) ∧
    (d.buttons = [] →
      (ButtonAccessibleNameRule.check d).map Finding.severity
        = [SeverityLevel.pass]) ∧
    (d.links = [] →
      (LinkTextRule.check d).map Finding.severity = [SeverityLevel.pass]) ∧
    (d.allIds = [] →
      (DuplicateIDRule.check d).map Finding.severity = [SeverityLevel.pass]) ∧
    (d.roleElems = [] →
      (ARIARoleValidRule.check d).map Finding.severity = [SeverityLevel.pass]) ∧
    (d.headings = [] →
      (HeadingHierarchyRule.check d).map Finding.severity
        = [SeverityLevel.warning]) := by
  refine ⟨?_, ?_, ?_, ?_, ?_, ?_, ?_⟩ <;> intro h
  · simp [ImageAltTextRule.check, h, ImageAltTextRule.finding]
  · simp [FormLabelRule.check, h, FormLabelRule.finding]
  · simp [ButtonAccessibleNameRule.check, h, ButtonAccessibleNameRule.finding]
  · simp [LinkTextRule.check, h, LinkTextRule.finding]
  · simp [DuplicateIDRule.check, h, duplicateIds, DuplicateIDRule.finding]
  · simp [ARIARoleValidRule.check, h, ARIARoleValidRule.finding]
  · simp [HeadingHierarchyRule.check, h, HeadingHierarchyRule.finding]

/-- Witness for C3 at the empty document. -/
theorem inapplicable_rule_outputs_witness :
    (ImageAltTextRule.check emptyDoc).map Finding.severity
        = [SeverityLevel.pass] ∧
      (FormLabelRule.check emptyDoc).map Finding.severity
        = [SeverityLevel.pass] ∧
      (ButtonAccessibleNameRule.check emptyDoc).map Finding.severity
        = [SeverityLevel.pass] ∧
      (LinkTextRule.check emptyDoc).map Finding.severity
        = [SeverityLevel.pass] ∧
      (DuplicateIDRule.check emptyDoc).map Finding.severity
        = [SeverityLevel.pass] ∧
      (ARIARoleValidRule.check emptyDoc).map Finding.severity
        = [SeverityLevel.pass] ∧
      (HeadingHierarchyRule.check emptyDoc).map Finding.severity
        = [SeverityLevel.warning] := by
  have h := inapplicable_rule_outputs emptyDoc
  exact ⟨h.1 rfl, h.2.1 rfl, h.2.2.1 rfl, h.2.2.2.1 rfl, h.2.2.2.2.1 rfl,
    h.2.2.2.2.2.1 rfl, h.2.2.2.2.2.2 rfl⟩

/-- Counterexample to C3 as stated: on a document with no headings (an
explicitly named not-applicable case) the heading-hierarchy rule emits a
Warning finding, not a Pass finding. -/
theorem heading_rule_counterexample :
    emptyDoc.headings = [] ∧
      (HeadingHierarchyRule.check emptyDoc).map Finding.severity
        = [SeverityLevel.warning] := by decide

/-- Claim C4: on every document, every rule of the ten-rule catalogue
emits at least one finding, and a rule that finds zero violations emits
exactly one Pass finding. -/
theorem catalogue_rules_nonempty (d : ParsedHTML) :
    ∀ r ∈ ALL_RULES, r d ≠ [] ∧
      ((∀ f ∈ r d, f.severity = SeverityLevel.pass) →
        (r d).map Finding.severity = [SeverityLevel.pass]) := by
  intro r hr
  simp only [ALL_RULES, List.mem_cons, List.not_mem_nil, or_false] at hr
  rcases hr with h | h | h | h | h | h | h | h | h | h <;> subst h
  · exact ⟨(imageAlt_good d).1, (imageAlt_good d).2.2⟩
  · exact ⟨(htmlLang_good d).1, (htmlLang_good d).2.2⟩
  · exact ⟨(pageTitle_good d).1, (pageTitle_good d).2.2⟩
  · exact ⟨(formLabel_good d).1, (formLabel_good d).2.2⟩
  · exact ⟨(button_good d).1, (button_good d).2.2⟩
  · exact ⟨(linkText_good d).1, (linkText_good d).2.2⟩
  · exact ⟨(headingHierarchy_good d).1, (headingHierarchy_good d).2.2⟩
  · exact ⟨(h1Exists_good d).1, (h1Exists_good d).2.2⟩
  · exact ⟨(duplicateId_good d).1, (duplicateId_good d).2.2⟩
  · exact ⟨(ariaRole_good d).1, (ariaRole_good d).2.2⟩

/-- Witness for C4: the first catalogue rule on the empty document. -/
theorem catalogue_rules_nonempty_witness :
    ImageAltTextRule.check emptyDoc ≠ [] ∧
      (ImageAltTextRule.check emptyDoc).map Finding.severity
        = [SeverityLevel.pass] := by
  have hmem : ImageAltTextRule.check ∈ ALL_RULES := by
    unfold ALL_RULES
    exact List.Mem.head _
  have h := catalogue_rules_nonempty emptyDoc ImageAltTextRule.check hmem
  exact ⟨h.1, h.2 (by decide)⟩

/-- Claim C5: total_checks equals the length of the finding list and the
three severity counters partition it. -/
theorem scan_counters_partition (d : ParsedHTML) :
    scanTotal d = (scanFindings d).length ∧
      passedCount (scanFindings d) + warningCount (scanFindings d)
        + failureCount (scanFindings d) = scanTotal d :=
  ⟨rfl, severity_partition (scanFindings d)⟩

/-- Claim C6: whenever some id value is duplicated, the duplicate-ID rule
emits exactly one Fail finding whose count is the number of distinct
duplicated values. -/
theorem duplicate_id_summary (d : ParsedHTML)
    (h : 0 < (duplicateIds d.allIds).length) :
    (DuplicateIDRule.check d).map (fun f => (f.severity, f.count))
      = [(SeverityLevel.fail, (duplicateIds d.allIds).length)] := by
  simp only [DuplicateIDRule.check]
  split
  · rename_i a l heq
    rw [heq]
    simp [DuplicateIDRule.finding]
  · rename_i heq
    rw [heq] at h
    simp at h

/-- Witness for C6: two and three elements sharing id x give one Fail
finding with count 1 each. -/
theorem duplicate_id_summary_witness :
    (DuplicateIDRule.check dupIdDoc).map (fun f => (f.severity, f.count))
        = [(SeverityLevel.fail, 1)] ∧
      (DuplicateIDRule.check tripleIdDoc).map (fun f => (f.severity, f.count))
        = [(SeverityLevel.fail, 1)] := by
  constructor
  · have h := duplicate_id_summary dupIdDoc (by decide)
    have hl : (duplicateIds dupIdDoc.allIds).length = 1 := by decide
    rw [hl] at h
    exact h
  · have h := duplicate_id_summary tripleIdDoc (by decide)
    have hl : (duplicateIds tripleIdDoc.allIds).length = 1 := by decide
    rw [hl] at h
    exact h

/-- Claim C7: the image-alt rule fails exactly the images whose alt
attribute is entirely absent: no absent-alt image gives one Pass finding,
otherwise one Fail finding counting the absent-alt images (present but
empty alt never counts). -/
theorem image_alt_absent_only (d : ParsedHTML) :
    (d.images.filter (fun img => img.get "alt" == none) = [] →
      (ImageAltTextRule.check d).map Finding.severity = [SeverityLevel.pass]) ∧
    (d.images.filter (fun img => img.get "alt" == none) ≠ [] →
      (ImageAltTextRule.check d).map (fun f => (f.severity, f.count))
        = [(SeverityLevel.fail,
            (d.images.filter (fun img => img.get "alt" == none)).length)]) := by
  constructor
  · intro h
    simp [ImageAltTextRule.check, h, ImageAltTextRule.finding]
  · intro h
    simp only [ImageAltTextRule.check]
    split
    · rename_i heq
      rw [List.map_eq_nil_iff] at heq
      exact absurd heq h
    · rename_i a l heq
      have hlen := congrArg List.length heq
      simp only [List.length_map, List.length_cons] at hlen
      simp [ImageAltTextRule.finding, hlen]

/-- Witness for C7: a document with no images gives one Pass; the
two-image document with one absent alt and one empty alt gives one Fail
with count 1. -/
theorem image_alt_absent_only_witness :
    (ImageAltTextRule.check emptyDoc).map Finding.severity
        = [SeverityLevel.pass] ∧
      (ImageAltTextRule.check twoImgDoc).map (fun f => (f.severity, f.count))
        = [(SeverityLevel.fail, 1)] := by
  constructor
  · exact (image_alt_absent_only emptyDoc).1 rfl
  · have h := (image_alt_absent_only twoImgDoc).2 (by decide)
    have hl : (twoImgDoc.images.filter
        (fun img => img.get "alt" == none)).length = 1 := by decide
    rw [hl] at h
    exact h

/-- Claim C8: a body exceeding the configured maximum size makes the fetch
fail with ContentTooLarge (never a truncated document), and the scan then
terminates Failed with an error message, no score and no findings. -/
theorem oversize_fetch_fails (maxSize : Nat) (resp : HttpResponse)
    (parse : String → ParsedHTML)
    (hstatus : resp.status < 400)
    (hct : containsSeq "text/html".toList resp.contentType.toList = true)
    (hsize : maxSize < resp.content.length) :
    fetchCheck maxSize resp
        = Except.error (FetchError.contentTooLarge resp.content.length maxSize) ∧
      (runScan maxSize resp parse).status = ScanStatus.failed ∧
      (runScan maxSize resp parse).score = none ∧
      (runScan maxSize resp parse).findings = [] ∧
      (runScan maxSize resp parse).error_message
        = some (FetchError.contentTooLarge resp.content.length maxSize).message := by
  have hfc : fetchCheck maxSize resp
      = Except.error (FetchError.contentTooLarge resp.content.length maxSize) := by
    unfold fetchCheck
    rw [if_neg (by omega), if_neg (by simpa using hct), if_pos hsize]
  refine ⟨hfc, ?_, ?_, ?_, ?_⟩ <;> simp [runScan, hfc]

/-- Witness for C8 at a concrete oversize HTML response. -/
theorem oversize_fetch_fails_witness :
    fetchCheck 3 oversizeResp
        = Except.error
            (FetchError.contentTooLarge oversizeResp.content.length 3) ∧
      (runScan 3 oversizeResp (fun _ => emptyDoc)).status = ScanStatus.failed ∧
      (runScan 3 oversizeResp (fun _ => emptyDoc)).score = none ∧
      (runScan 3 oversizeResp (fun _ => emptyDoc)).findings = [] ∧
      (runScan 3 oversizeResp (fun _ => emptyDoc)).error_message
        = some
            (FetchError.contentTooLarge oversizeResp.content.length 3).message :=
  oversize_fetch_fails 3 oversizeResp (fun _ => emptyDoc)
    (by decide) (by decide) (by decide)

/-- Claim C9, amended: vague-link detection is an exact membership test of
the effective link text against the fixed phrase set (never a substring
test), the own link text being trimmed and lowercased while the aria-label
and image-alt fallbacks are only trimmed, and a matching sole link yields
exactly one Warning finding while a non-matching one yields one Pass. -/
theorem vague_link_exact_match (d : ParsedHTML) (l : Tag)
    (hd : d.links = [l]) (hne : LinkTextRule.effectiveText l ≠ "") :
    (LinkTextRule.effectiveText l ∈ LinkTextRule.vague_texts →
      (LinkTextRule.check d).map (fun f => (f.severity, f.count))
        = [(SeverityLevel.warning, 1)]) ∧
    (LinkTextRule.effectiveText l ∉ LinkTextRule.vague_texts →
      (LinkTextRule.check d).map Finding.severity = [SeverityLevel.pass]) := by
  have hb : (LinkTextRule.effectiveText l == "") = false := by
    simp [hne]
  constructor
  · intro hmem
    simp [LinkTextRule.check, hd, hb, hne, hmem, LinkTextRule.finding]
  · intro hmem
    simp [LinkTextRule.check, hd, hb, hne, hmem, LinkTextRule.finding]

/-- Witness for C9: the Click-here link yields one Warning with count 1,
and a link merely containing a vague phrase as a substring passes. -/
theorem vague_link_exact_match_witness :
    (LinkTextRule.check clickHereDoc).map (fun f => (f.severity, f.count))
        = [(SeverityLevel.warning, 1)] ∧
      (LinkTextRule.check verboseLinkDoc).map Finding.severity
        = [SeverityLevel.pass] := by
  constructor
  · exact (vague_link_exact_match clickHereDoc clickHereLink rfl
      (by decide)).1 (by decide)
  · exact (vague_link_exact_match verboseLinkDoc verboseLink rfl
      (by decide)).2 (by decide)

/-- Counterexample to C9 as stated: a link whose effective text comes from
an aria-label equal to a vague phrase up to letter case is not matched
case-insensitively; the rule emits a Pass, not a Warning. -/
theorem vague_link_case_counterexample :
    LinkTextRule.effectiveText ariaClickLink = "Click Here" ∧
      strLower (strTrim (LinkTextRule.effectiveText ariaClickLink))
        ∈ LinkTextRule.vague_texts ∧
      (LinkTextRule.check ariaClickDoc).map Finding.severity
        = [SeverityLevel.pass] := by decide

/-- Claim C10: the four per-principle issue counters of a scan add up to
warnings plus failures; Pass findings contribute to no bucket. -/
theorem principle_buckets_sum (d : ParsedHTML) :
    perceivableIssues d + operableIssues d + understandableIssues d
      + robustIssues d
      = warningCount (scanFindings d) + failureCount (scanFindings d) :=
  sum_principle_eq (scanFindings d) (scanFindings_principle d)
